import Mathlib

/-!
Shallow embedding of the checkpoint/validation bookkeeping subsystem of
padertorch (src/padertorch/train/hooks.py): the metric tracker class
named with a leading underscore in the source (here `Metric`), the
`CheckpointedValidationHook` promotion engine, and the hook `Priority`
values.  Python floats are modelled as rationals extended with the two
infinities (`PyFloat`); Python runtime failures (AttributeError,
NameError, TypeError, AssertionError) are modelled with an explicit
error type `PyErr`.  Filesystem paths are modelled as a parent
directory string plus a basename (`FsPath`); symlink resolution is an
explicit function parameter.
-/

/-- Non-NaN Python float values as they occur in the bookkeeping code:
a rational number, or one of the two infinities produced by
`float("inf")` in the `_Metric` constructor. -/
inductive PyFloat where
  | negInf : PyFloat
  | fin : ℚ → PyFloat
  | posInf : PyFloat
deriving DecidableEq, Repr

/-- The Python comparison `a <= b` on (non-NaN) floats. -/
def PyFloat.le : PyFloat → PyFloat → Bool
  | PyFloat.negInf, _ => true
  | PyFloat.fin _, PyFloat.negInf => false
  | PyFloat.fin a, PyFloat.fin b => decide (a ≤ b)
  | PyFloat.fin _, PyFloat.posInf => true
  | PyFloat.posInf, PyFloat.posInf => true
  | PyFloat.posInf, PyFloat.fin _ => false
  | PyFloat.posInf, PyFloat.negInf => false

/-- The Python builtin `abs` on (non-NaN) floats. -/
def PyFloat.abs : PyFloat → PyFloat
  | PyFloat.negInf => PyFloat.posInf
  | PyFloat.fin q => PyFloat.fin |q|
  | PyFloat.posInf => PyFloat.posInf

/-- Order-embedding of `PyFloat` into the extended rationals
(bottom = -inf, top = +inf), used to state order properties. -/
def PyFloat.toERat : PyFloat → WithBot (WithTop ℚ)
  | PyFloat.negInf => ⊥
  | PyFloat.fin q => ((q : WithTop ℚ) : WithBot (WithTop ℚ))
  | PyFloat.posInf => ((⊤ : WithTop ℚ) : WithBot (WithTop ℚ))

/-- The boolean comparison agrees with the mathematical order on the
extended rationals. -/
theorem PyFloat.le_iff_toERat (a b : PyFloat) :
    PyFloat.le a b = true ↔ PyFloat.toERat a ≤ PyFloat.toERat b := by
  cases a <;> cases b <;>
    simp [PyFloat.le, PyFloat.toERat, le_bot_iff, top_le_iff,
      WithBot.coe_le_coe, WithTop.coe_le_coe, WithBot.coe_ne_bot,
      WithTop.coe_ne_top, le_top, bot_le]

/-- A Python runtime value as it reaches the comparison operators in
this subsystem: either a (non-NaN) float, or a list of floats (the
raw per-batch scalar list held in the summary dictionary). -/
inductive PyVal where
  | float : PyFloat → PyVal
  | listv : List PyFloat → PyVal
deriving DecidableEq, Repr

/-- Python exceptions raised by the embedded code. -/
inductive PyErr where
  | attributeError : String → PyErr
  | nameError : String → PyErr
  | typeError : String → PyErr
  | assertionError : String → PyErr
deriving DecidableEq, Repr

/-- The Python comparison `a <= b` on runtime values: defined between
two floats, a TypeError when a list meets a float (Python 3 refuses
ordering comparisons between list and float). -/
def pyLe : PyVal → PyVal → Except PyErr Bool
  | PyVal.float a, PyVal.float b => Except.ok (PyFloat.le a b)
  | _, _ => Except.error (PyErr.typeError "unorderable: list and float")

/-- The Python comparison `a >= b` on runtime values. -/
def pyGe : PyVal → PyVal → Except PyErr Bool
  | PyVal.float a, PyVal.float b => Except.ok (PyFloat.le b a)
  | _, _ => Except.error (PyErr.typeError "unorderable: list and float")

/-- A filesystem path inside the checkpoint machinery: the parent
directory (as one opaque string) and the basename.  `pathlib`
operations used by the source map to: `p.parent / x` is
`FsPath.mk p.dir x`, `p.name` is `p.base`. -/
structure FsPath where
  dir : String
  base : String
deriving DecidableEq, Repr

/-- `str(path)` for the JSON serialization. -/
def FsPath.toStr (p : FsPath) : String := p.dir ++ "/" ++ p.base

/-- One entry of the checkpoint directory listing, as seen by
`FsPath.glob` plus the `is_file` / `is_symlink` predicates. -/
structure DirEntry where
  name : String
  isFile : Bool
  isSymlink : Bool
deriving DecidableEq, Repr

/-- The metric criterion strings accepted by the `_Metric` constructor
(the constructor asserts membership in the pair min/max, so the
embedding uses an inductive type). -/
inductive Crit where
  | min : Crit
  | max : Crit
deriving DecidableEq, Repr

/-- The `_Metric` bookkeeping object of hooks.py (lines 266-337):
private fields `_key`, `_criterion`, `_symlink_name` and `_value`. -/
structure Metric where
  key : String
  criterion : Crit
  symlink_name : Option FsPath
  value : PyFloat
deriving DecidableEq, Repr

/-- `_Metric.__init__` (hooks.py lines 270-276): stores key and
criterion, no symlink yet, and initializes the value to plus infinity
for criterion min and minus infinity for criterion max. -/
def Metric.init (metric_key : String) (criterion : Crit) : Metric :=
  { key := metric_key
    criterion := criterion
    symlink_name := none
    value := if criterion = Crit.min then PyFloat.posInf else PyFloat.negInf }

/-- `_Metric.paths` property (hooks.py lines 283-285): the resolved
symlink as a one-element list, or the empty list when no symlink has
been recorded.  Symlink resolution (`FsPath.resolve`) is passed in as a
function from the modelled filesystem. -/
def Metric.paths (resolve : FsPath → FsPath) (m : Metric) : List FsPath :=
  match m.symlink_name with
  | some s => [resolve s]
  | none => []

/-- `_Metric.values` property (hooks.py lines 287-289): the current
value as a one-element list unless its absolute value is infinite. -/
def Metric.values (m : Metric) : List PyFloat :=
  if PyFloat.abs m.value ≠ PyFloat.posInf then [m.value] else []

/-- `_Metric.is_better` (hooks.py lines 291-301).  The comparison is
the Python operator on whatever value was passed in, so it is partial:
on the raw summary list it raises a TypeError.  The final else branch
of the source (AssertionError) is unreachable because the constructor
restricts the criterion. -/
def Metric.is_better (m : Metric) (value : PyVal) : Except PyErr Bool :=
  match m.criterion with
  | Crit.min => pyLe value (PyVal.float m.value)
  | Crit.max => pyGe value (PyVal.float m.value)

/-- `_Metric._get_symlink_path` (hooks.py lines 314-315): the string
literal in the source lacks the f marker, so no substitution of the
metric key happens and the resulting basename is the same fixed text
for every metric. -/
def Metric.get_symlink_path (_m : Metric) (checkpoint_path : FsPath) : FsPath :=
  FsPath.mk checkpoint_path.dir "ckpt_best_\x7bself._key\x7d"

/-- `_Metric.update` (hooks.py lines 303-312): the first statement
assigns the new value to `_value`; the second statement calls
`self._get_symlink_name(checkpoint_path)`, a method `_Metric` does not
define (the class defines `_get_symlink_path`), so attribute lookup
raises AttributeError.  The partially updated object keeps the new
value; the symlink manipulation below that line never executes. -/
def Metric.update (m : Metric) (value : PyFloat) (_checkpoint_path : FsPath) :
    Metric × Option PyErr :=
  ({ m with value := value },
   some (PyErr.attributeError "_Metric has no attribute _get_symlink_name"))

/-- The JSON record produced by `_Metric.to_json`. -/
structure MetricJson where
  key : String
  criterion : Crit
  values : List PyFloat
  paths : List String
deriving DecidableEq, Repr

/-- `_Metric.to_json` (hooks.py lines 317-322). -/
def Metric.to_json (resolve : FsPath → FsPath) (m : Metric) : MetricJson :=
  { key := m.key
    criterion := m.criterion
    values := m.values
    paths := (Metric.paths resolve m).map FsPath.toStr }

/-- `_Metric.set_state` (hooks.py lines 324-337): the first two
asserts compare key and criterion and raise AssertionError on
mismatch; the third assert compares `_symlink_name` with the
identifier `none` (lower case), a name Python does not define, so it
always raises NameError before any state is restored.  The remaining
lines (which are also bracket-unbalanced in the source) are
unreachable. -/
def Metric.set_state (m : Metric) (state_dict : MetricJson) :
    Metric × Option PyErr :=
  if m.key ≠ state_dict.key then
    (m, some (PyErr.assertionError "key mismatch"))
  else if m.criterion ≠ state_dict.criterion then
    (m, some (PyErr.assertionError "criterion mismatch"))
  else
    (m, some (PyErr.nameError "name none is not defined"))

/-- The `Priority` IntEnum of hooks.py (lines 29-48), as declared in
the source enum body (note: the docstring of the enum lists Validation
at 25 and Checkpoint at 20, the declarations below it swap the two). -/
def Priority.END : ℕ := 10

/-- `Priority.DEFAULT` (hooks.py line 43). -/
def Priority.DEFAULT : ℕ := 15

/-- `Priority.VALIDATION` (hooks.py line 44). -/
def Priority.VALIDATION : ℕ := 20

/-- `Priority.CHECKPOINT` (hooks.py line 45). -/
def Priority.CHECKPOINT : ℕ := 25

/-- `Priority.PROGRESS` (hooks.py line 46). -/
def Priority.PROGRESS : ℕ := 30

/-- `Priority.PRINT` (hooks.py line 47). -/
def Priority.PRINT : ℕ := 40

/-- `Priority.SUMMARY` (hooks.py line 48). -/
def Priority.SUMMARY : ℕ := 50

/-- `ValidationHook.priority` (hooks.py lines 244-246). -/
def ValidationHook.priority : ℕ := Priority.VALIDATION

/-- `CheckpointedValidationHook` does not override the priority
property, so it inherits the value from `ValidationHook`. -/
def CheckpointedValidationHook.priority : ℕ := ValidationHook.priority

/-- The mutable fields of a `CheckpointedValidationHook` object that
the bookkeeping claims are about: the internal metric dictionary (an
insertion-ordered association list, like a Python dict), the keep_all
flag, and the latest checkpoint reference. -/
structure HookState where
  metrics : List (String × Metric)
  keep_all : Bool
  latest_checkpoint : Option FsPath
deriving DecidableEq, Repr

/-- The persisted session state file ckpt_state.json. -/
structure JsonState where
  latest_checkpoint_path : FsPath
  metrics : List (String × MetricJson)
deriving DecidableEq, Repr

/-- `CheckpointedValidationHook._convert_metrics_to_internal_layout`
(hooks.py lines 411-414). -/
def convert_metrics_to_internal_layout (metrics : List (String × Crit)) :
    List (String × Metric) :=
  metrics.map fun kc => (kc.1, Metric.init kc.1 kc.2)

/-- The Python test `set(a.keys()) == set(b.keys())` on the key lists
of two dictionaries. -/
def sameKeySet (a b : List String) : Bool :=
  a.all (fun k => b.contains k) && b.all (fun k => a.contains k)

/-- `CheckpointedValidationHook.__init__` (hooks.py lines 348-369).
The constructor asserts a non-empty metrics dict, builds the internal
tracker layout and, when init_from_json is set, loads the JSON state
(given here as `json_state`), sets `latest_checkpoint` from it, and
asserts that the configured key set equals the persisted key set
(AssertionError on mismatch, raised before any tracker is touched and
before any validation round can run).  When the sets match, the
restore loop iterates over `metrics.items()` of the original
constructor argument, not over `self.metrics`, so the loop variable is
the criterion string and the call `metric.set_state(...)` raises
AttributeError on the first iteration (a str has no such attribute):
no tracker is ever restored.  The first component of the result is the
partially constructed object (fields assigned before the raise), the
second the raised exception if any. -/
def CheckpointedValidationHook.mkHook (metrics : List (String × Crit))
    (keep_all : Bool) (init_from_json : Bool) (json_state : JsonState) :
    Option HookState × Option PyErr :=
  if metrics.isEmpty then
    (none, some (PyErr.assertionError "The metrics dict must not be empty"))
  else
    let internal := convert_metrics_to_internal_layout metrics
    if init_from_json then
      let latest := json_state.latest_checkpoint_path
      if sameKeySet (metrics.map Prod.fst) (json_state.metrics.map Prod.fst)
      then
        (some { metrics := internal, keep_all := keep_all,
                latest_checkpoint := some latest },
         some (PyErr.attributeError "str has no attribute set_state"))
      else
        (some { metrics := internal, keep_all := keep_all,
                latest_checkpoint := some latest },
         some (PyErr.assertionError "metric set mismatch"))
    else
      (some { metrics := internal, keep_all := keep_all,
              latest_checkpoint := none }, none)

/-- `CheckpointedValidationHook.best_checkpoints` (hooks.py lines
405-409): the set of resolved best-checkpoint paths of all trackers
(modelled as a list; only membership matters). -/
def best_checkpoints (resolve : FsPath → FsPath)
    (metrics : List (String × Metric)) : List FsPath :=
  (metrics.map fun km => Metric.paths resolve km.2).flatten

/-- `CheckpointedValidationHook._cleanup_stale_checkpoints` (hooks.py
lines 434-446), returning the list of deleted paths.  With keep_all
the method returns immediately.  Otherwise it forms the used set from
the latest checkpoint and every best checkpoint, lists the checkpoint
directory entries whose basename matches the glob ckpt_*, keeps the
regular files that are not symlinks, and unlinks those not in the used
set.  (The source line building this list has one unbalanced bracket;
the only bracket-balanced reading is the filter used here.) -/
def cleanup_stale_checkpoints (keep_all : Bool) (resolve : FsPath → FsPath)
    (metrics : List (String × Metric)) (latest_checkpoint : FsPath)
    (entries : List DirEntry) : List FsPath :=
  if keep_all then []
  else
    let used_checkpoints : List FsPath :=
      latest_checkpoint :: best_checkpoints resolve metrics
    let stored_checkpoints : List DirEntry :=
      entries.filter fun p =>
        p.name.startsWith "ckpt_" && p.isFile && !p.isSymlink
    (stored_checkpoints.filter fun c =>
        decide (FsPath.mk latest_checkpoint.dir c.name ∉ used_checkpoints)).map
      fun c => FsPath.mk latest_checkpoint.dir c.name

/-- The whole engine state: the hook object plus the chronological
list of checkpoints the trainer was asked to save. -/
structure EngineState where
  hook : HookState
  saved : List FsPath
deriving DecidableEq, Repr

/-- Lookup in the summary scalars dictionary.  The summary is a
defaultdict(list), so a missing key yields the empty list. -/
def lookup_scalars (scalars : List (String × List PyFloat))
    (key : String) : List PyFloat :=
  match scalars.find? (fun kv => kv.1 == key) with
  | some kv => kv.2
  | none => []

/-- The loop body of
`CheckpointedValidationHook._update_validated_checkpoints` (hooks.py
lines 424-432).  For each tracker the code reads
`summary_value = self.summary["scalars"][metric_key]`, the raw list of
per-example scalars collected during the validation pass, and hands it
to `is_better`, which applies the Python comparison between that list
and the float `_value`: TypeError.  Were `is_better` ever to return
true, the call `metric.update(value, self.latest_checkpoint)` names
the identifier `value`, which is bound nowhere in the method, so it
would raise NameError.  In every case no tracker is modified, so only
the first raised exception is returned. -/
def update_validated_go (scalars : List (String × List PyFloat)) :
    List (String × Metric) → Option PyErr
  | [] => none
  | (metric_key, metric) :: rest =>
    let summary_value : PyVal := PyVal.listv (lookup_scalars scalars metric_key)
    match Metric.is_better metric summary_value with
    | Except.error e => some e
    | Except.ok true => some (PyErr.nameError "name value is not defined")
    | Except.ok false => update_validated_go scalars rest

/-- `CheckpointedValidationHook._update_validated_checkpoints` as a
state transformer: the state is returned unchanged (no update can
complete, see `update_validated_go`) together with the exception. -/
def update_validated_checkpoints (s : EngineState)
    (scalars : List (String × List PyFloat)) : EngineState × Option PyErr :=
  (s, update_validated_go scalars s.hook.metrics)

/-- Observable mutation events of one validation round, used to state
the crash-consistency ordering claim. -/
inductive Event where
  | checkpointSave : FsPath → Event
  | writerDump : Event
  | checkpointDelete : FsPath → Event
  | jsonWrite : Event
deriving DecidableEq, Repr

/-- `CheckpointedValidationHook.dump_summary` (hooks.py lines
375-385): first `_update_validated_checkpoints`, then the inherited
summary dump (the tensorboard writer output), then
`_cleanup_stale_checkpoints`, and `dump_json` last.  The result is the
updated state, the chronological list of events that executed, and the
first exception if one was raised (an exception aborts the sequence,
so later events do not happen). -/
def CheckpointedValidationHook.dump_summary (s : EngineState)
    (resolve : FsPath → FsPath) (entries : List DirEntry)
    (scalars : List (String × List PyFloat)) :
    EngineState × (List Event × Option PyErr) :=
  match update_validated_checkpoints s scalars with
  | (s1, some e) => (s1, ([], some e))
  | (s1, none) =>
    match s1.hook.latest_checkpoint with
    | none =>
      (s1, ([Event.writerDump],
            some (PyErr.attributeError "NoneType has no attribute parent")))
    | some latest =>
      let deleted := cleanup_stale_checkpoints s1.hook.keep_all resolve
        s1.hook.metrics latest entries
      (s1, ([Event.writerDump] ++ deleted.map Event.checkpointDelete
              ++ [Event.jsonWrite], none))

/-- `CheckpointedValidationHook._save_latest_checkpoint` (hooks.py
lines 416-422): ask the trainer for the current default checkpoint
path, save a checkpoint there, and point `latest_checkpoint` at it.
The path the trainer returns is passed in as `checkpoint_path`. -/
def save_latest_checkpoint (s : EngineState) (checkpoint_path : FsPath) :
    EngineState :=
  { hook := { s.hook with latest_checkpoint := some checkpoint_path },
    saved := s.saved ++ [checkpoint_path] }

/-- `CheckpointedValidationHook.pre_step` (hooks.py lines 371-373):
unconditionally `_save_latest_checkpoint`, then the inherited
`ValidationHook.pre_step`, which runs the validation pass and calls
`dump_summary` exactly when the trigger fires (`trigger_fires`); the
scalars the pass produced are given in `scalars`. -/
def CheckpointedValidationHook.pre_step (s : EngineState)
    (checkpoint_path : FsPath) (trigger_fires : Bool)
    (resolve : FsPath → FsPath) (entries : List DirEntry)
    (scalars : List (String × List PyFloat)) :
    EngineState × (List Event × Option PyErr) :=
  let s1 := save_latest_checkpoint s checkpoint_path
  if trigger_fires then
    match CheckpointedValidationHook.dump_summary s1 resolve entries scalars
    with
    | (s2, (evs, err)) =>
      (s2, (Event.checkpointSave checkpoint_path :: evs, err))
  else (s1, ([Event.checkpointSave checkpoint_path], none))

/-- Claim C3: for every tracker and every candidate value, is_better
returns true exactly when the candidate is no larger than the best
value under criterion min and no smaller under criterion max (so ties
are accepted); and on the tracker state produced by the value
assignment of update(V, p), a later candidate w is accepted under min
exactly when w is no larger than V. -/
theorem is_better_spec (m : Metric) (v w V : PyFloat) (p : FsPath) :
    (m.criterion = Crit.min →
      (Metric.is_better m (PyVal.float v) = Except.ok true ↔
        PyFloat.toERat v ≤ PyFloat.toERat m.value)) ∧
    (m.criterion = Crit.max →
      (Metric.is_better m (PyVal.float v) = Except.ok true ↔
        PyFloat.toERat m.value ≤ PyFloat.toERat v)) ∧
    (Metric.update m V p).1.criterion = m.criterion ∧
    (m.criterion = Crit.min →
      ((Metric.update m V p).1.is_better (PyVal.float w) = Except.ok true ↔
        PyFloat.toERat w ≤ PyFloat.toERat V)) := by
  refine ⟨?_, ?_, rfl, ?_⟩ <;> intro h <;>
    simp [Metric.is_better, Metric.update, h, pyLe, pyGe,
      ← PyFloat.le_iff_toERat]

/-- Witness for C3 at a concrete minimization tracker and candidate. -/
theorem is_better_spec_witness :
    (Metric.init "loss" Crit.min).criterion = Crit.min ∧
    ((Metric.init "loss" Crit.min).is_better (PyVal.float (PyFloat.fin 2))
        = Except.ok true ↔
      PyFloat.toERat (PyFloat.fin 2) ≤
        PyFloat.toERat (Metric.init "loss" Crit.min).value) :=
  ⟨rfl, (is_better_spec (Metric.init "loss" Crit.min) (PyFloat.fin 2)
      (PyFloat.fin 0) (PyFloat.fin 0) (FsPath.mk "" "")).1 rfl⟩

/-- Claim C10: a fresh tracker initializes its value to plus infinity
under min and minus infinity under max, accepts every finite candidate
value, and serializes with empty values and paths lists until its
first update. -/
theorem fresh_metric_accepts_everything (k : String) (c : Crit) (q : ℚ)
    (resolve : FsPath → FsPath) :
    (Metric.init k c).value
        = (if c = Crit.min then PyFloat.posInf else PyFloat.negInf) ∧
    (Metric.init k c).is_better (PyVal.float (PyFloat.fin q))
        = Except.ok true ∧
    (Metric.to_json resolve (Metric.init k c)).values = [] ∧
    (Metric.to_json resolve (Metric.init k c)).paths = [] := by
  cases c <;>
    simp [Metric.init, Metric.is_better, Metric.to_json, Metric.values,
      Metric.paths, PyFloat.abs, pyLe, pyGe, PyFloat.le]

/-- Claim C9, counterexample: the declared priority of the
CheckpointedValidationHook (Priority.VALIDATION, 20) does not lie
strictly between the print priority (40) and the summary priority
(50). -/
theorem priority_not_between_print_and_summary :
    ¬ (Priority.PRINT < CheckpointedValidationHook.priority ∧
       CheckpointedValidationHook.priority < Priority.SUMMARY) := by decide

/-- Claim C9, amended: the declared priority lies strictly above the
end-of-training priority and strictly below the print priority, which
in turn lies strictly below the summary priority (summary highest,
end-of-training lowest). -/
theorem priority_above_end_below_print_below_summary :
    Priority.END < CheckpointedValidationHook.priority ∧
    CheckpointedValidationHook.priority < Priority.PRINT ∧
    Priority.PRINT < Priority.SUMMARY := by decide

/-- Claim C4 fails on the code: update on a fresh tracker records the
value but raises AttributeError (it calls the method
_get_symlink_name, which does not exist; the class defines
_get_symlink_path), so no symlink is created or retargeted; moreover
_get_symlink_path yields one and the same basename for two distinct
metric keys, because the literal in the source lacks the f-string
marker. -/
theorem update_raises_attribute_error :
    Metric.update (Metric.init "loss" Crit.min) (PyFloat.fin 2)
        (FsPath.mk "/store" "ckpt_1")
      = ({ key := "loss", criterion := Crit.min, symlink_name := none,
           value := PyFloat.fin 2 },
         some (PyErr.attributeError
           "_Metric has no attribute _get_symlink_name")) ∧
    Metric.get_symlink_path (Metric.init "loss" Crit.min)
        (FsPath.mk "/store" "ckpt_1")
      = Metric.get_symlink_path (Metric.init "accuracy" Crit.max)
          (FsPath.mk "/store" "ckpt_1") :=
  ⟨rfl, rfl⟩

/-- Claim C5 fails on the code: restoring a fresh tracker from the
serialized form of an updated tracker raises NameError (the third
assert of set_state reads the undefined identifier none) and restores
nothing, the returned tracker still carrying the fresh plus-infinity
value; the mismatched-key and mismatched-criterion restores do raise
the claimed configuration AssertionError. -/
theorem set_state_raises_name_error :
    Metric.set_state (Metric.init "loss" Crit.min)
        (Metric.to_json (fun p => p)
          ((Metric.update (Metric.init "loss" Crit.min) (PyFloat.fin 2)
            (FsPath.mk "/store" "ckpt_1")).1))
      = (Metric.init "loss" Crit.min,
         some (PyErr.nameError "name none is not defined")) ∧
    (Metric.set_state (Metric.init "accuracy" Crit.min)
        ⟨"loss", Crit.min, [PyFloat.fin 2], ["/store/ckpt_1"]⟩).2
      = some (PyErr.assertionError "key mismatch") ∧
    (Metric.set_state (Metric.init "loss" Crit.max)
        ⟨"loss", Crit.min, [PyFloat.fin 2], ["/store/ckpt_1"]⟩).2
      = some (PyErr.assertionError "criterion mismatch") := by
  refine ⟨?_, ?_, ?_⟩ <;> rfl

/-- Claim C6 is half satisfied on the code: with a mismatched key set
the constructor raises the configuration AssertionError during
initialization, before any tracker restore and before any validation
round; but with matching key sets, although latest_checkpoint is
restored from the JSON, the restore loop raises AttributeError (it
iterates the raw configuration dict, whose values are the criterion
strings), so every tracker keeps its fresh state instead of the
persisted one. -/
theorem mkHook_init_from_json_behavior :
    (CheckpointedValidationHook.mkHook
        [("loss", Crit.min), ("accuracy", Crit.max)] false true
        ⟨FsPath.mk "/store" "ckpt_7",
         [("loss", ⟨"loss", Crit.min, [PyFloat.fin 2],
            ["/store/ckpt_5"]⟩)]⟩).2
      = some (PyErr.assertionError "metric set mismatch") ∧
    CheckpointedValidationHook.mkHook [("loss", Crit.min)] false true
        ⟨FsPath.mk "/store" "ckpt_7",
         [("loss", ⟨"loss", Crit.min, [PyFloat.fin 2],
            ["/store/ckpt_5"]⟩)]⟩
      = (some { metrics := [("loss", Metric.init "loss" Crit.min)],
                keep_all := false,
                latest_checkpoint := some (FsPath.mk "/store" "ckpt_7") },
         some (PyErr.attributeError "str has no attribute set_state")) := by
  refine ⟨?_, ?_⟩ <;> rfl

/-- Claim C2 fails on the code: on a validation round the engine hands
is_better the raw list of per-example scalars collected by the
validation pass, so the round raises TypeError and no tracker is
updated; afterwards the tracker still carries its fresh plus-infinity
best value instead of the just-reported value 2. -/
theorem update_validated_checkpoints_raises :
    update_validated_checkpoints
        { hook := { metrics := [("loss", Metric.init "loss" Crit.min)],
                    keep_all := false,
                    latest_checkpoint := some (FsPath.mk "/store" "ckpt_1") },
          saved := [FsPath.mk "/store" "ckpt_1"] }
        [("loss", [PyFloat.fin 2])]
      = ({ hook := { metrics := [("loss", Metric.init "loss" Crit.min)],
                     keep_all := false,
                     latest_checkpoint :=
                       some (FsPath.mk "/store" "ckpt_1") },
           saved := [FsPath.mk "/store" "ckpt_1"] },
         some (PyErr.typeError "unorderable: list and float")) := rfl

/-- Claim C7: every pre_step call unconditionally saves a new
checkpoint at the path the trainer hands out and retargets
latest_checkpoint at exactly that path, whether or not the validation
trigger fires. -/
theorem pre_step_always_saves (s : EngineState) (cp : FsPath) (fire : Bool)
    (resolve : FsPath → FsPath) (entries : List DirEntry)
    (scalars : List (String × List PyFloat)) :
    (CheckpointedValidationHook.pre_step s cp fire resolve entries
        scalars).1.saved = s.saved ++ [cp] ∧
    (CheckpointedValidationHook.pre_step s cp fire resolve entries
        scalars).1.hook.latest_checkpoint = some cp := by
  cases fire
  · simp [CheckpointedValidationHook.pre_step, save_latest_checkpoint]
  · cases h : update_validated_go scalars s.hook.metrics with
    | none =>
      simp [CheckpointedValidationHook.pre_step,
        CheckpointedValidationHook.dump_summary,
        update_validated_checkpoints, save_latest_checkpoint, h]
    | some e =>
      simp [CheckpointedValidationHook.pre_step,
        CheckpointedValidationHook.dump_summary,
        update_validated_checkpoints, save_latest_checkpoint, h]

/-- Claim C8: within every validation round, the JSON state write,
when it happens at all, is the unique final event of the round: the
checkpoint save, every tracker/symlink mutation and every
stale-checkpoint deletion of the round precedes it, and nothing
follows it. -/
theorem round_trace_json_write_last (s : EngineState) (cp : FsPath)
    (fire : Bool) (resolve : FsPath → FsPath) (entries : List DirEntry)
    (scalars : List (String × List PyFloat)) :
    Event.jsonWrite ∉
        (CheckpointedValidationHook.pre_step s cp fire resolve entries
          scalars).2.1 ∨
    ∃ l, (CheckpointedValidationHook.pre_step s cp fire resolve entries
            scalars).2.1 = l ++ [Event.jsonWrite] ∧ Event.jsonWrite ∉ l := by
  cases fire
  · left
    simp [CheckpointedValidationHook.pre_step]
  · cases h : update_validated_go scalars s.hook.metrics with
    | none =>
      right
      refine ⟨Event.checkpointSave cp :: Event.writerDump ::
        (cleanup_stale_checkpoints s.hook.keep_all resolve
            s.hook.metrics cp entries).map Event.checkpointDelete, ?_, ?_⟩
      · simp [CheckpointedValidationHook.pre_step,
          CheckpointedValidationHook.dump_summary,
          update_validated_checkpoints, save_latest_checkpoint, h]
      · simp [List.mem_map]
    | some e =>
      left
      simp [CheckpointedValidationHook.pre_step,
        CheckpointedValidationHook.dump_summary,
        update_validated_checkpoints, save_latest_checkpoint, h]

/-- Claim C1: the garbage collector deletes nothing when keep_all is
set; otherwise it deletes exactly the regular, non-symlink checkpoint
directory entries matching the ckpt_* glob whose paths lie outside the
used set (the latest checkpoint together with every tracker best
checkpoint), and it never deletes a member of the used set. -/
theorem cleanup_stale_checkpoints_spec (resolve : FsPath → FsPath)
    (metrics : List (String × Metric)) (latest : FsPath)
    (entries : List DirEntry) :
    cleanup_stale_checkpoints true resolve metrics latest entries = [] ∧
    (∀ p : FsPath,
      p ∈ cleanup_stale_checkpoints false resolve metrics latest entries ↔
        ∃ e ∈ entries, e.name.startsWith "ckpt_" = true ∧ e.isFile = true ∧
          e.isSymlink = false ∧ p = FsPath.mk latest.dir e.name ∧
          p ∉ latest :: best_checkpoints resolve metrics) ∧
    (∀ p ∈ latest :: best_checkpoints resolve metrics,
      p ∉ cleanup_stale_checkpoints false resolve metrics latest entries) := by
  have hiff : ∀ p : FsPath,
      p ∈ cleanup_stale_checkpoints false resolve metrics latest entries ↔
        ∃ e ∈ entries, e.name.startsWith "ckpt_" = true ∧ e.isFile = true ∧
          e.isSymlink = false ∧ p = FsPath.mk latest.dir e.name ∧
          p ∉ latest :: best_checkpoints resolve metrics := by
    intro p
    simp only [cleanup_stale_checkpoints, Bool.false_eq_true, if_false,
      List.mem_map, List.mem_filter, Bool.and_eq_true, Bool.not_eq_true',
      decide_eq_true_eq]
    constructor
    · rintro ⟨e, ⟨⟨he, hgf, hs⟩, hu⟩, rfl⟩
      exact ⟨e, he, hgf.1, hgf.2, hs, rfl, hu⟩
    · rintro ⟨e, he, hg, hf, hs, rfl, hu⟩
      exact ⟨e, ⟨⟨he, ⟨hg, hf⟩, hs⟩, hu⟩, rfl⟩
  refine ⟨rfl, hiff, ?_⟩
  intro p hp hdel
  rcases (hiff p).mp hdel with ⟨e, _, _, _, _, _, hu⟩
  exact hu hp

/-- Witness for C1: with no tracker symlinks and latest checkpoint
ckpt_7, the used path ckpt_7 is not deleted even though it is a
matching regular file in the directory listing. -/
theorem cleanup_stale_checkpoints_spec_witness :
    FsPath.mk "/s" "ckpt_7" ∈
        FsPath.mk "/s" "ckpt_7" :: best_checkpoints (fun p => p) [] ∧
    FsPath.mk "/s" "ckpt_7" ∉ cleanup_stale_checkpoints false (fun p => p) []
        (FsPath.mk "/s" "ckpt_7")
        [DirEntry.mk "ckpt_3" true false, DirEntry.mk "ckpt_7" true false] :=
  ⟨List.mem_cons_self _ _,
   (cleanup_stale_checkpoints_spec (fun p => p) [] (FsPath.mk "/s" "ckpt_7")
       [DirEntry.mk "ckpt_3" true false, DirEntry.mk "ckpt_7" true false]).2.2
     _ (List.mem_cons_self _ _)⟩
